import Mathlib

/-!
Shallow embedding of the RUNETIC order/payment orchestration engine
(`backend/server.py`) and proofs about its checkout, discount, shipping,
pickup-token, order-status and payment-attempt logic.

Conventions of the embedding:
* Python floats holding money are idealized as rationals (`ℚ`); Python ints
  are `ℤ`; ISO timestamps are `ℤ` (seconds).
* MongoDB collections are Lean lists; `find_one` is `List.find?`;
  `update_one` rewrites the first matching element.
* A FastAPI handler that can raise `HTTPException` is a function into
  `Except String _`; an error result means the request aborted and every
  database write the handler had not yet issued was not issued.
* `create_order` additionally returns the ordered list of database writes
  it issued (`DbWrite`), so that the relative order of the notification
  dispatch and the order insert is observable.
-/

namespace Runetic

/-- Money amounts (Python floats in the source) idealized as rationals. -/
abbrev Money := ℚ

/-- Line item of a cart, mirroring the `CartItem` pydantic model. -/
structure CartItem where
  product_id : String
  product_code : String
  product_name : String
  version_type : String
  size : String
  quantity : ℤ
  unit_price : Money
  total_price : Money
  deriving DecidableEq, Repr

/-- Shipping address, mirroring the `ShippingAddress` pydantic model. -/
structure ShippingAddress where
  full_name : String
  document_type : String
  document_id : String
  phone : String
  email : String
  address : String
  city : String
  department : String
  deriving DecidableEq, Repr

/-- One entry of a discount code's `used_by` redemption list. -/
structure UsedBy where
  name : String
  email : String
  phone : String
  address : String
  deriving DecidableEq, Repr

/-- Discount code document, mirroring the `DiscountCode` pydantic model. -/
structure DiscountCode where
  id : String
  code : String
  discount_type : String
  discount_value : Money
  code_type : String
  max_uses : Option ℤ
  current_uses : ℤ
  used_by : List UsedBy
  valid_from : ℤ
  valid_until : Option ℤ
  active : Bool
  deriving DecidableEq, Repr

/-- Order document, mirroring the `Order` pydantic model plus the two
payment-reference fields that payment endpoints write (`latest_payment_reference`)
and the webhook queries (`payment_reference`). -/
structure Order where
  id : String
  order_number : String
  customer_type : String
  items : List CartItem
  subtotal : Money
  discount_code : Option String
  discount_amount : Money
  shipping_cost : Money
  total_amount : Money
  shipping_address : ShippingAddress
  payment_method : String
  payment_status : String
  order_status : String
  size_confirmation : Bool
  pickup_token : Option String
  pickup_token_used : Bool
  latest_payment_reference : Option String
  payment_reference : Option String
  deriving DecidableEq, Repr

/-- Checkout request body, mirroring the `OrderCreate` pydantic model.
The caller may supply `shipping_cost`, `subtotal` and `total_amount`. -/
structure OrderCreate where
  customer_type : String
  items : List CartItem
  shipping_address : ShippingAddress
  payment_method : String
  discount_code : Option String
  size_confirmation : Bool
  shipping_cost : Option Money
  subtotal : Option Money
  total_amount : Option Money
  deriving DecidableEq, Repr

/-- Flat shipping fee (`SHIPPING_COST = 15000` in `create_order`). -/
def SHIPPING_COST : Money := 15000

/-- Free-shipping unit threshold (`FREE_SHIPPING_MIN_UNITS = 6`). -/
def FREE_SHIPPING_MIN_UNITS : ℤ := 6

/-- Sum of the line totals (`sum(item.total_price for item in order.items)`). -/
def subtotalOf (items : List CartItem) : Money :=
  (items.map (fun i => i.total_price)).sum

/-- Sum of the line quantities (`sum(item.quantity for item in order.items)`). -/
def totalUnits (items : List CartItem) : ℤ :=
  (items.map (fun i => i.quantity)).sum

/-- Customer fingerprint string `f"{full_name}|{phone}|{address}"`. -/
def customerKey (a : ShippingAddress) : String :=
  a.full_name ++ "|" ++ a.phone ++ "|" ++ a.address

/-- Fingerprint of a stored redemption entry `f"{name}|{phone}|{address}"`. -/
def usedKey (u : UsedBy) : String :=
  u.name ++ "|" ++ u.phone ++ "|" ++ u.address

/-- Expiry test `code.get("valid_until") and fromisoformat(...) < now`. -/
def codeExpired (d : DiscountCode) (now : ℤ) : Bool :=
  match d.valid_until with
  | none => false
  | some t => decide (t < now)

/-- Usage-cap test `code.get("max_uses") and current_uses >= max_uses`.
Python truthiness makes `max_uses = 0` behave like `None` (unlimited). -/
def codeLimitReached (d : DiscountCode) : Bool :=
  match d.max_uses with
  | none => false
  | some m => m != 0 && decide (m ≤ d.current_uses)

/-- Fingerprint de-duplication test for `normal` codes. -/
def codeAlreadyUsedBy (d : DiscountCode) (a : ShippingAddress) : Bool :=
  d.code_type == "normal" && d.used_by.any (fun u => usedKey u == customerKey a)

/-- Discount amount: `subtotal * value/100` for `percentage`, else `value`. -/
def discountFor (d : DiscountCode) (subtotal : Money) : Money :=
  if d.discount_type == "percentage" then subtotal * (d.discount_value / 100)
  else d.discount_value

/-- Discount validation block of `create_order` (lines 577-602): lookup of an
active code, expiry check, usage-cap check, fingerprint check, amount. -/
def validateDiscount (codes : List DiscountCode) (c : String) (a : ShippingAddress)
    (items : List CartItem) (now : ℤ) : Except String Money :=
  match codes.find? (fun d => d.code == c && d.active) with
  | none => Except.error "Invalid discount code"
  | some d =>
    if codeExpired d now then Except.error "Discount code expired"
    else if codeLimitReached d then Except.error "Discount code limit reached"
    else if codeAlreadyUsedBy d a then Except.error "You have already used this discount code"
    else Except.ok (discountFor d (subtotalOf items))

/-- Shipping-cost block of `create_order` (lines 608-625): a caller-supplied
cost is used as-is; otherwise wholesale always pays the flat fee and retail
pays it unless the order has at least `FREE_SHIPPING_MIN_UNITS` units. -/
def computeShipping (req : OrderCreate) : Money :=
  match req.shipping_cost with
  | some c => c
  | none =>
    if req.customer_type == "wholesale" then SHIPPING_COST
    else if decide (FREE_SHIPPING_MIN_UNITS ≤ totalUnits req.items) then 0
    else SHIPPING_COST

/-- Mongo `update_one({"code": c}, {"$inc": {"current_uses": 1}, "$push": {"used_by": u}})`:
increment-and-append on the first document whose `code` matches. -/
def redeemUpdate : List DiscountCode → String → UsedBy → List DiscountCode
  | [], _, _ => []
  | d :: rest, c, u =>
    if d.code == c then
      { d with current_uses := d.current_uses + 1, used_by := d.used_by ++ [u] } :: rest
    else d :: redeemUpdate rest c u

/-- One database write issued by `create_order`, in issuance order. -/
inductive DbWrite where
  | emailLog (order_number token : String)
  | insertOrder (o : Order)
  | incDiscountUse (code : String) (u : UsedBy)
  | decStock (product_code version_type size : String) (qty : ℤ)
  deriving DecidableEq, Repr

/-- Persistent store touched by the checkout path. -/
structure Store where
  discount_codes : List DiscountCode
  orders : List Order
  email_logs : List (String × String)
  deriving DecidableEq, Repr

/-- Response body of `create_order`. -/
structure CreateResponse where
  order_id : String
  order_number : String
  pickup_token : Option String
  deriving DecidableEq, Repr

/-- Bulk inventory decrement writes, one per line item. -/
def stockWrites (items : List CartItem) : List DbWrite :=
  items.map (fun i => DbWrite.decStock i.product_code i.version_type i.size i.quantity)

/-- Redemption entry pushed onto `used_by` during `create_order`. -/
def usedByOf (a : ShippingAddress) : UsedBy :=
  { name := a.full_name, email := a.email, phone := a.phone, address := a.address }

/-- Order document built by `create_order` (lines 633-644): every total is
recomputed; the caller-supplied `subtotal`, `shipping_cost` (as a field of
the order), `total_amount` and `discount_amount` are excluded by the
`order.dict(exclude=...)` call and never copied. -/
def mkOrder (req : OrderCreate) (discount_amount : Money)
    (genId genNum genToken : String) : Order :=
  { id := genId
    order_number := genNum
    customer_type := req.customer_type
    items := req.items
    subtotal := subtotalOf req.items
    discount_code := req.discount_code
    discount_amount := discount_amount
    shipping_cost := computeShipping req
    total_amount := subtotalOf req.items - discount_amount + computeShipping req
    shipping_address := req.shipping_address
    payment_method := req.payment_method
    payment_status := "pending"
    order_status := "pending"
    size_confirmation := req.size_confirmation
    pickup_token := if req.payment_method == "cash_on_delivery" then some genToken else none
    pickup_token_used := false
    latest_payment_reference := none
    payment_reference := none }

/-- Store state after a successful `create_order`: order inserted, discount
usage incremented-and-appended when a code was supplied, email logged when
the order is cash-on-delivery. -/
def postStore (s : Store) (req : OrderCreate) (o : Order)
    (genNum genToken : String) : Store :=
  { discount_codes :=
      match req.discount_code with
      | none => s.discount_codes
      | some c => redeemUpdate s.discount_codes c (usedByOf req.shipping_address)
    orders := s.orders ++ [o]
    email_logs :=
      if req.payment_method == "cash_on_delivery" then s.email_logs ++ [(genNum, genToken)]
      else s.email_logs }

/-- Database writes issued by a successful `create_order`, in source order:
the pickup-token email (COD only, lines 650-663) comes before the order
insert (line 665), then the discount update (667-682), then the bulk stock
decrements (684-694). -/
def orderWrites (req : OrderCreate) (o : Order) (genNum genToken : String) : List DbWrite :=
  (if req.payment_method == "cash_on_delivery" then [DbWrite.emailLog genNum genToken] else []) ++
  [DbWrite.insertOrder o] ++
  (match req.discount_code with
   | none => []
   | some c => [DbWrite.incDiscountUse c (usedByOf req.shipping_address)]) ++
  stockWrites req.items

/-- The `POST /orders` handler `create_order`. `genId`, `genNum`, `genToken`
stand for the generated uuid, order number and pickup token; `emailOk` is
whether `send_pickup_token_email` (awaited inline, no exception handler)
succeeds. On a cash-on-delivery order the email write is issued before the
order insert; an email failure propagates and aborts the handler before the
order is persisted, so the error case issues no write at all. -/
def create_order (s : Store) (req : OrderCreate) (now : ℤ)
    (genId genNum genToken : String) (emailOk : Bool) :
    Except String (Store × List DbWrite × CreateResponse) :=
  match (match req.discount_code with
         | none => Except.ok 0
         | some c => validateDiscount s.discount_codes c req.shipping_address req.items now) with
  | Except.error e => Except.error e
  | Except.ok discount_amount =>
    if req.payment_method == "cash_on_delivery" && !emailOk then
      Except.error "email dispatch failed"
    else
      Except.ok (postStore s req (mkOrder req discount_amount genId genNum genToken) genNum genToken,
        orderWrites req (mkOrder req discount_amount genId genNum genToken) genNum genToken,
        { order_id := genId, order_number := genNum,
          pickup_token := if req.payment_method == "cash_on_delivery" then some genToken else none })

/-- The `PUT /orders/{id}/status` mapping (lines 798-812): derive both
`payment_status` and `order_status` from one requested value. The result is
the pair `(payment_status, order_status)` after the update, given the
current pair. -/
def update_order_status (ps os : String) (status : String) : String × String :=
  if status == "pending" || status == "paid" || status == "failed" || status == "confirmed" then
    (status,
      if status == "paid" then "confirmed"
      else if status == "confirmed" then "processing"
      else os)
  else if status == "delivered" then ("paid", "delivered")
  else if status == "cancelled" then ("cancelled", "cancelled")
  else (ps, status)

/-- The `POST /orders/{id}/use-pickup-token` handler (lines 754-782), acting
on the fetched order document. Not-found at the collection level is handled
by the caller; here the order exists. An error result means the handler
raised before its single `update_one`, leaving the order unchanged. -/
def use_pickup_token (o : Order) : Except String Order :=
  if o.payment_method != "cash_on_delivery" then
    Except.error "Esta orden no es contra entrega"
  else if o.pickup_token_used then
    Except.error "El token ya fue utilizado"
  else
    Except.ok { o with pickup_token_used := true, payment_status := "paid",
                       order_status := "delivered" }

/-- Payment attempt document of the `payment_attempts` collection.
`created_at` is `none` when the field is absent or unparsable (the PSE
endpoint then skips the staleness branch entirely). -/
structure PaymentAttempt where
  id : String
  order_id : String
  reference : String
  amount_in_cents : ℤ
  status : String
  created_at : Option ℤ
  deriving DecidableEq, Repr

/-- Non-terminal status set of the card/generic guard
(`{"$in": ["initiated", "pending", "PENDING"]}`). -/
def cardNonTerminal (s : String) : Bool :=
  s == "initiated" || s == "pending" || s == "PENDING"

/-- Guard step 1 of `create_wompi_transaction` (lines 1396-1406): reject with
409 Conflict when any attempt for the order has a status in the non-terminal
set; there is no staleness test on this path. -/
def createTransactionConflict (attempts : List PaymentAttempt) (oid : String) : Bool :=
  attempts.any (fun a => a.order_id == oid && cardNonTerminal a.status)

/-- Status set reclassified by PSE step 1
(`["initiated", "failed", "DECLINED", "ERROR", "VOIDED"]`). -/
def pseCleanupStatus (s : String) : Bool :=
  s == "initiated" || s == "failed" || s == "DECLINED" || s == "ERROR" || s == "VOIDED"

/-- PSE step 1 (lines 1580-1586): mark old attempts of this order whose
status is in the cleanup set as `cancelled_for_retry`, regardless of age. -/
def pseCleanup (attempts : List PaymentAttempt) (oid : String) : List PaymentAttempt :=
  attempts.map (fun a =>
    if a.order_id == oid && pseCleanupStatus a.status then
      { a with status := "cancelled_for_retry" }
    else a)

/-- Staleness bound of the PSE guard: `timedelta(minutes=15)` in seconds. -/
def PSE_STALE_SECONDS : ℤ := 15 * 60

/-- Mark one attempt (matched by id) as `expired`. -/
def markExpired (attempts : List PaymentAttempt) (aid : String) : List PaymentAttempt :=
  attempts.map (fun a => if a.id == aid then { a with status := "expired" } else a)

/-- PSE steps 1-2 of `create_wompi_pse_transaction` (lines 1579-1610): after
the cleanup, look for a `PENDING` attempt of this order; if it has a parsable
`created_at` older than 15 minutes, mark it `expired` and proceed; if it is
younger, reject with 409 Conflict; if `created_at` is missing, proceed.
Returns the attempt list as left when the handler proceeds past the guard. -/
def pseGuard (attempts : List PaymentAttempt) (oid : String) (now : ℤ) :
    Except String (List PaymentAttempt) :=
  let cleaned := pseCleanup attempts oid
  match cleaned.find? (fun a => a.order_id == oid && a.status == "PENDING") with
  | none => Except.ok cleaned
  | some p =>
    match p.created_at with
    | none => Except.ok cleaned
    | some t =>
      if PSE_STALE_SECONDS < now - t then Except.ok (markExpired cleaned p.id)
      else Except.error "Tu pago esta siendo procesado en el banco."

/-- Payment transaction document of the legacy `payment_transactions`
collection (only ever updated or read by this code base, never inserted). -/
structure PaymentTransaction where
  reference : String
  status : String
  wompi_transaction_id : Option String
  wompi_status : Option String
  deriving DecidableEq, Repr

/-- Collections touched by the webhook handler. -/
structure PaymentState where
  payment_attempts : List PaymentAttempt
  payment_transactions : List PaymentTransaction
  orders : List Order
  deriving DecidableEq, Repr

/-- Webhook status mapping (lines 1792-1800), with `.get(status, "pending")`
defaulting to `pending`. -/
def statusMapping (s : String) : String :=
  if s == "APPROVED" then "paid"
  else if s == "DECLINED" then "failed"
  else if s == "ERROR" then "failed"
  else if s == "VOIDED" then "cancelled"
  else if s == "PENDING" then "pending"
  else "pending"

/-- Mongo `update_one` on `payment_transactions` by `reference`: rewrite the
first matching document, storing the mapped status in `status` and the raw
gateway status in `wompi_status` (line 1808). -/
def updateTransactionStatus : List PaymentTransaction → String → String → String → String →
    List PaymentTransaction
  | [], _, _, _, _ => []
  | tx :: rest, ref, st, raw, wid =>
    if tx.reference == ref then
      { tx with status := st, wompi_transaction_id := some wid, wompi_status := some raw } :: rest
    else tx :: updateTransactionStatus rest ref st raw wid

/-- Mongo `update_one` on `orders` matching on the `payment_reference` field. -/
def updateOrderByPaymentReference : List Order → String → (Order → Order) → List Order
  | [], _, _ => []
  | o :: rest, ref, f =>
    if o.payment_reference == some ref then f o :: rest
    else o :: updateOrderByPaymentReference rest ref f

/-- The `POST /payments/wompi/webhook` handler (lines 1776-1833): map the
gateway status, update `payment_transactions` by reference, and update the
order matched on its `payment_reference` field (paid sets
payment_status/order_status to paid/confirmed, failed sets payment_status
to failed). The `payment_attempts` collection is not touched. -/
def wompi_webhook (st : PaymentState) (reference status wompiTxId : String) : PaymentState :=
  let app_status := statusMapping status
  let txs := updateTransactionStatus st.payment_transactions reference app_status status wompiTxId
  let orders :=
    if app_status == "paid" then
      updateOrderByPaymentReference st.orders reference
        (fun o => { o with payment_status := "paid", order_status := "confirmed" })
    else if app_status == "failed" then
      updateOrderByPaymentReference st.orders reference
        (fun o => { o with payment_status := "failed" })
    else st.orders
  { st with payment_transactions := txs, orders := orders }

/-- The `POST /payments/wompi/register-attempt` handler (lines 1859-1908),
restricted to its effect on the `payment_attempts` collection: reject when
the reference exists anywhere in the store, else insert a new attempt with
status `initiated`. An error result means no insert was issued. -/
def register_payment_attempt (attempts : List PaymentAttempt)
    (oid ref : String) (amount : ℤ) (newId : String) (now : ℤ) :
    Except String (List PaymentAttempt) :=
  if attempts.any (fun a => a.reference == ref) then
    Except.error "Esta referencia de pago ya fue utilizada. Por favor inicie un nuevo pago."
  else
    Except.ok (attempts ++
      [{ id := newId, order_id := oid, reference := ref, amount_in_cents := amount,
         status := "initiated", created_at := some now }])

/-! ## Inversion lemmas -/

/-- Accepted discount validation names an active stored code that passed the
expiry, cap and fingerprint guards, and the amount is `discountFor`. -/
lemma validateDiscount_ok_parts {codes : List DiscountCode} {c : String}
    {a : ShippingAddress} {items : List CartItem} {now : ℤ} {da : Money}
    (h : validateDiscount codes c a items now = Except.ok da) :
    ∃ d, codes.find? (fun d => d.code == c && d.active) = some d ∧
      codeExpired d now = false ∧ codeLimitReached d = false ∧
      codeAlreadyUsedBy d a = false ∧ da = discountFor d (subtotalOf items) := by
  unfold validateDiscount at h
  split at h
  · exact absurd h (by simp)
  · rename_i d hfind
    refine ⟨d, hfind, ?_⟩
    split at h
    · exact absurd h (by simp)
    · split at h
      · exact absurd h (by simp)
      · split at h
        · exact absurd h (by simp)
        · rename_i h1 h2 h3
          simp only [Except.ok.injEq] at h
          exact ⟨Bool.eq_false_iff.mpr h1, Bool.eq_false_iff.mpr h2,
            Bool.eq_false_iff.mpr h3, h.symm⟩

/-- An accepted checkout decomposes into an accepted discount amount, a
passed email step, and the canonical post-state, write list and response. -/
lemma create_order_ok_parts {s : Store} {req : OrderCreate} {now : ℤ}
    {gi gn gt : String} {emailOk : Bool}
    {s2 : Store} {w : List DbWrite} {resp : CreateResponse}
    (h : create_order s req now gi gn gt emailOk = Except.ok (s2, w, resp)) :
    ∃ da : Money,
      (match req.discount_code with
       | none => da = 0
       | some c => validateDiscount s.discount_codes c req.shipping_address req.items now =
           Except.ok da) ∧
      (req.payment_method == "cash_on_delivery" && !emailOk) = false ∧
      s2 = postStore s req (mkOrder req da gi gn gt) gn gt ∧
      w = orderWrites req (mkOrder req da gi gn gt) gn gt ∧
      resp = { order_id := gi, order_number := gn,
               pickup_token := if req.payment_method == "cash_on_delivery" then some gt
                 else none } := by
  unfold create_order at h
  split at h
  · exact absurd h (by simp)
  · rename_i da hda
    split at h
    · exact absurd h (by simp)
    · rename_i hmail
      simp only [Except.ok.injEq, Prod.mk.injEq] at h
      refine ⟨da, ?_, Bool.eq_false_iff.mpr hmail, h.1.symm, h.2.1.symm, h.2.2.symm⟩
      cases hdc : req.discount_code with
      | none => rw [hdc] at hda; simpa using hda.symm
      | some c => rw [hdc] at hda; simpa using hda

/-! ## Supporting lemmas -/

/-- Nonnegative line totals give a nonnegative subtotal. -/
lemma subtotalOf_nonneg {items : List CartItem}
    (h : ∀ i ∈ items, 0 ≤ i.total_price) : 0 ≤ subtotalOf items := by
  unfold subtotalOf
  apply List.sum_nonneg
  intro x hx
  obtain ⟨i, hi, rfl⟩ := List.mem_map.mp hx
  exact h i hi

/-- The shipping policy never returns a negative cost unless the caller
supplies one. -/
lemma computeShipping_nonneg {req : OrderCreate}
    (h : ∀ q, req.shipping_cost = some q → 0 ≤ q) : 0 ≤ computeShipping req := by
  unfold computeShipping
  split
  · rename_i c hc
    exact h c hc
  · split
    · norm_num [SHIPPING_COST]
    · split
      · norm_num
      · norm_num [SHIPPING_COST]

/-! ## Concrete fixtures -/

/-- Fixed shipping address used by the concrete checkout scenarios. -/
def sampleAddr : ShippingAddress :=
  { full_name := "Ana Gomez", document_type := "CC", document_id := "10203040",
    phone := "3001112233", email := "ana@example.com", address := "Calle 1 2-3",
    city := "Bogota", department := "Cundinamarca" }

/-- One line item: a single 10 000 COP shirt. -/
def sampleItem : CartItem :=
  { product_id := "p1", product_code := "RUN-0001", product_name := "Shirt",
    version_type := "hombre_fan", size := "M", quantity := 1,
    unit_price := 10000, total_price := 10000 }

/-- Retail single-item checkout request paying by PSE, no discount, no
caller-supplied totals. -/
def baseReq : OrderCreate :=
  { customer_type := "retail", items := [sampleItem], shipping_address := sampleAddr,
    payment_method := "pse", discount_code := none, size_confirmation := true,
    shipping_cost := none, subtotal := none, total_amount := none }

/-- Store with no discount codes, orders or email logs. -/
def emptyStore : Store := { discount_codes := [], orders := [], email_logs := [] }

/-! ## C1: checkout total formula and nonnegativity -/

/-- Active fixed-amount discount code worth 50 000 COP, unlimited uses. -/
def fixedCode : DiscountCode :=
  { id := "d1", code := "BIG", discount_type := "fixed", discount_value := 50000,
    code_type := "authorized", max_uses := none, current_uses := 0, used_by := [],
    valid_from := 0, valid_until := none, active := true }

/-- Store holding only `fixedCode`. -/
def c1Store : Store := { discount_codes := [fixedCode], orders := [], email_logs := [] }

/-- The base checkout with the fixed code applied. -/
def c1Req : OrderCreate := { baseReq with discount_code := some "BIG" }

/-- C1 counterexample: the checkout of one 10 000 COP item with the fixed
50 000 COP code is accepted, and the persisted order has subtotal 10 000,
discount 50 000, shipping 15 000 and total -25 000, which is negative, so
`total ≥ 0` fails for a fixed-type discount. -/
theorem C1_counterexample :
    (create_order c1Store c1Req 0 "i" "n" "t" true).toOption.map
        (fun r => r.1.orders.map (fun o =>
          (o.subtotal, o.discount_amount, o.shipping_cost, o.total_amount))) =
      some [(10000, 50000, 15000, -25000)] ∧
    ¬ (0 : Money) ≤ -25000 := by
  constructor
  · norm_num [create_order, c1Store, c1Req, baseReq, validateDiscount, fixedCode,
      codeExpired, codeLimitReached, codeAlreadyUsedBy, discountFor, subtotalOf,
      sampleItem, computeShipping, totalUnits, FREE_SHIPPING_MIN_UNITS, SHIPPING_COST,
      postStore, mkOrder, List.find?, Except.toOption]
    refine ⟨by decide, ?_⟩
    rw [if_neg (by decide : ¬ ("fixed" : String) = "percentage")]
    norm_num
  · norm_num

/-- C1 (amended): every checkout accepted by `create_order` persists an
order with `total_amount = subtotal - discount_amount + shipping_cost`, the
subtotal being the sum of the line totals, unconditionally; and the total
is nonnegative provided the line totals are nonnegative, any
caller-supplied shipping cost is nonnegative, and the discount code the
checkout actually applies (the active stored code its lookup finds, if a
code is supplied at all) is percentage-type with value at most 100 — a
fixed-type discount can drive the total negative. -/
theorem C1_total_formula (s : Store) (req : OrderCreate) (now : ℤ)
    (gi gn gt : String) (emailOk : Bool)
    (s2 : Store) (w : List DbWrite) (resp : CreateResponse)
    (h : create_order s req now gi gn gt emailOk = Except.ok (s2, w, resp)) :
    ∀ o : Order, s2.orders = s.orders ++ [o] →
      (o.total_amount = o.subtotal - o.discount_amount + o.shipping_cost ∧
       o.subtotal = subtotalOf req.items) ∧
      ((∀ i ∈ req.items, 0 ≤ i.total_price) →
       (∀ q, req.shipping_cost = some q → 0 ≤ q) →
       (∀ c d, req.discount_code = some c →
         s.discount_codes.find? (fun d => d.code == c && d.active) = some d →
         d.discount_type = "percentage" ∧ d.discount_value ≤ 100) →
       0 ≤ o.total_amount) := by
  obtain ⟨da, hda, hmail, hs2, hw, hresp⟩ := create_order_ok_parts h
  intro o ho
  rw [hs2] at ho
  have hoe : mkOrder req da gi gn gt = o := by
    have h2 : s.orders ++ [mkOrder req da gi gn gt] = s.orders ++ [o] := ho
    simpa using h2
  subst hoe
  refine ⟨⟨rfl, rfl⟩, ?_⟩
  intro hitems hship hcode
  have hsub : 0 ≤ subtotalOf req.items := subtotalOf_nonneg hitems
  have hshipc : 0 ≤ computeShipping req := computeShipping_nonneg hship
  have hdasub : da ≤ subtotalOf req.items := by
    cases hdc : req.discount_code with
    | none =>
      rw [hdc] at hda
      simp only at hda
      rw [hda]
      exact hsub
    | some c =>
      rw [hdc] at hda
      simp only at hda
      obtain ⟨d, hfind, _, _, _, hdval⟩ := validateDiscount_ok_parts hda
      obtain ⟨hpct, hle⟩ := hcode c d hdc hfind
      rw [hdval]
      unfold discountFor
      rw [if_pos (by simp [hpct])]
      calc subtotalOf req.items * (d.discount_value / 100)
          ≤ subtotalOf req.items * 1 := by
            apply mul_le_mul_of_nonneg_left _ hsub
            linarith
        _ = subtotalOf req.items := mul_one _
  show 0 ≤ subtotalOf req.items - da + computeShipping req
  linarith

/-- Active 10 percent discount code. -/
def pctCode : DiscountCode :=
  { id := "d2", code := "PCT10", discount_type := "percentage", discount_value := 10,
    code_type := "authorized", max_uses := none, current_uses := 0, used_by := [],
    valid_from := 0, valid_until := none, active := true }

/-- Store holding both the fixed code and the percentage code: only the
applied code matters for the C1 witness. -/
def c1wStore : Store :=
  { discount_codes := [fixedCode, pctCode], orders := [], email_logs := [] }

/-- The base checkout applying the percentage code. -/
def c1wReq : OrderCreate := { baseReq with discount_code := some "PCT10" }

/-- C1 witness order: the base request accepted with the 10 percent code. -/
def c1wOrder : Order :=
  mkOrder c1wReq (discountFor pctCode (subtotalOf c1wReq.items)) "i" "n" "t"

/-- C1 witness: the amended theorem applied to a concrete accepted checkout
that redeems the percentage code out of a store which also holds a
fixed-type code. -/
theorem C1_total_formula_witness :
    (c1wOrder.total_amount =
        c1wOrder.subtotal - c1wOrder.discount_amount + c1wOrder.shipping_cost ∧
      c1wOrder.subtotal = subtotalOf c1wReq.items) ∧
    0 ≤ c1wOrder.total_amount := by
  have h := C1_total_formula c1wStore c1wReq 0 "i" "n" "t" true
    (postStore c1wStore c1wReq c1wOrder "n" "t")
    (orderWrites c1wReq c1wOrder "n" "t")
    { order_id := "i", order_number := "n", pickup_token := none }
    rfl c1wOrder rfl
  refine ⟨h.1, h.2 ?_ ?_ ?_⟩
  · intro i hi
    simp only [c1wReq, baseReq, List.mem_singleton] at hi
    rw [hi]
    norm_num [sampleItem]
  · intro q hq
    simp [c1wReq, baseReq] at hq
  · intro c d hc hfind
    simp only [c1wReq, baseReq, Option.some.injEq] at hc
    subst hc
    have he : List.find? (fun d => d.code == "PCT10" && d.active) c1wStore.discount_codes =
        some pctCode := rfl
    rw [he] at hfind
    injection hfind with hd
    subst hd
    exact ⟨rfl, by norm_num [pctCode]⟩

/-! ## C2: one non-terminal payment attempt per order -/

/-- A `pending` card attempt created at time 0, examined 20 minutes later:
older than the 15-minute staleness bound. -/
def staleAttempt : PaymentAttempt :=
  { id := "a1", order_id := "o1", reference := "R1", amount_in_cents := 100,
    status := "pending", created_at := some 0 }

/-- C2 counterexample: the card-path guard of `create_wompi_transaction`
still reports a conflict for an attempt whose age (1200 s) exceeds the
15-minute staleness bound, so a stale non-terminal attempt is not excluded
from that guard. -/
theorem C2_counterexample :
    createTransactionConflict [staleAttempt] "o1" = true ∧
    staleAttempt.created_at = some 0 ∧ PSE_STALE_SECONDS < 1200 - 0 ∧
    cardNonTerminal staleAttempt.status = true := by decide

/-- C2 (amended): the card path rejects with Conflict exactly when the order
has an attempt with status `initiated`/`pending`/`PENDING`, with no
staleness exclusion, and proceeds once every attempt of the order is
terminal; only the PSE path excludes stale attempts: it first reclassifies
`initiated`/`failed`/`DECLINED`/`ERROR`/`VOIDED` attempts, then rejects
exactly when the `PENDING` attempt it finds is younger than 15 minutes,
and marks an older one `expired` and proceeds. -/
theorem C2_attempt_guard (attempts : List PaymentAttempt) (oid : String) (now t : ℤ)
    (p : PaymentAttempt) :
    (createTransactionConflict attempts oid = true ↔
      ∃ a ∈ attempts, a.order_id = oid ∧ cardNonTerminal a.status = true) ∧
    ((∀ a ∈ attempts, a.order_id = oid → cardNonTerminal a.status = false) →
      createTransactionConflict attempts oid = false) ∧
    ((pseCleanup attempts oid).find? (fun a => a.order_id == oid && a.status == "PENDING") =
        none →
      pseGuard attempts oid now = Except.ok (pseCleanup attempts oid)) ∧
    ((pseCleanup attempts oid).find? (fun a => a.order_id == oid && a.status == "PENDING") =
        some p →
      p.created_at = some t →
      (PSE_STALE_SECONDS < now - t →
        pseGuard attempts oid now = Except.ok (markExpired (pseCleanup attempts oid) p.id)) ∧
      (¬ PSE_STALE_SECONDS < now - t →
        pseGuard attempts oid now =
          Except.error "Tu pago esta siendo procesado en el banco.")) := by
  refine ⟨?_, ?_, ?_, ?_⟩
  · simp [createTransactionConflict, List.any_eq_true, Bool.and_eq_true, beq_iff_eq]
  · intro h
    simp only [createTransactionConflict, List.any_eq_false, Bool.and_eq_true, beq_iff_eq,
      not_and]
    intro a ha haord
    rw [h a ha haord]
    simp
  · intro hfind
    unfold pseGuard
    dsimp only
    rw [hfind]
  · intro hfind hca
    constructor
    · intro hlt
      unfold pseGuard
      dsimp only
      rw [hfind]
      dsimp only
      rw [hca]
      dsimp only
      rw [if_pos hlt]
    · intro hlt
      unfold pseGuard
      dsimp only
      rw [hfind]
      dsimp only
      rw [hca]
      dsimp only
      rw [if_neg hlt]

/-- A gateway-`PENDING` attempt created at time 0. -/
def pendingAttempt : PaymentAttempt :=
  { id := "a2", order_id := "o2", reference := "R2", amount_in_cents := 100,
    status := "PENDING", created_at := some 0 }

/-- C2 witness: at 20 minutes the card guard still conflicts on the
`PENDING` attempt, while the PSE guard marks it expired and proceeds. -/
theorem C2_attempt_guard_witness :
    createTransactionConflict [pendingAttempt] "o2" = true ∧
    pseGuard [pendingAttempt] "o2" 1200 =
      Except.ok (markExpired (pseCleanup [pendingAttempt] "o2") "a2") := by
  have h := C2_attempt_guard [pendingAttempt] "o2" 1200 0 pendingAttempt
  exact ⟨h.1.mpr ⟨pendingAttempt, by simp, rfl, by decide⟩,
    (h.2.2.2 (by decide) (by decide)).1 (by decide)⟩

/-! ## C3: webhook reconciliation targets -/

/-- Payment attempt created by the transaction flow, status `PENDING`. -/
def c3Attempt : PaymentAttempt :=
  { id := "a3", order_id := "o3", reference := "R3", amount_in_cents := 2000000,
    status := "PENDING", created_at := some 0 }

/-- Order linked to that attempt the way `create_wompi_transaction` links it:
through `latest_payment_reference`; no code path ever sets `payment_reference`. -/
def c3Order : Order :=
  { id := "o3", order_number := "N3", customer_type := "retail", items := [sampleItem],
    subtotal := 10000, discount_code := none, discount_amount := 0, shipping_cost := 15000,
    total_amount := 25000, shipping_address := sampleAddr, payment_method := "pse",
    payment_status := "pending", order_status := "pending", size_confirmation := true,
    pickup_token := none, pickup_token_used := false,
    latest_payment_reference := some "R3", payment_reference := none }

/-- State reached after the transaction flow: one attempt, one linked order,
and an empty `payment_transactions` collection (nothing ever inserts there). -/
def c3State : PaymentState :=
  { payment_attempts := [c3Attempt], payment_transactions := [], orders := [c3Order] }

/-- C3 (code bug): the webhook maps the gateway vocabulary exactly as the
claim says, but its updates target the legacy `payment_transactions`
collection instead of `payment_attempts`, and match orders on the
`payment_reference` field that no code path ever sets (the creation flows
set `latest_payment_reference`), so an `APPROVED` webhook for a reference
produced by the transaction flow leaves the whole state unchanged: the
stored attempt stays `PENDING` and the order stays `pending`/`pending`. -/
theorem C3_webhook_dead_reconciliation :
    statusMapping "APPROVED" = "paid" ∧ statusMapping "DECLINED" = "failed" ∧
    statusMapping "ERROR" = "failed" ∧ statusMapping "VOIDED" = "cancelled" ∧
    statusMapping "PENDING" = "pending" ∧
    c3Attempt.reference = "R3" ∧ c3Order.latest_payment_reference = some "R3" ∧
    wompi_webhook c3State "R3" "APPROVED" "tx9" = c3State ∧
    c3Attempt.status = "PENDING" ∧ c3Order.payment_status = "pending" ∧
    c3Order.order_status = "pending" :=
  ⟨rfl, rfl, rfl, rfl, rfl, rfl, rfl, rfl, rfl, rfl, rfl⟩

/-! ## C4: discount usage cap -/

/-- Active discount code with `max_uses = 0`, which Python truthiness makes
behave as unlimited. -/
def zeroCapCode : DiscountCode :=
  { id := "d0", code := "ZERO", discount_type := "fixed", discount_value := 1000,
    code_type := "authorized", max_uses := some 0, current_uses := 0, used_by := [],
    valid_from := 0, valid_until := none, active := true }

/-- Store holding only `zeroCapCode`. -/
def c4Store : Store := { discount_codes := [zeroCapCode], orders := [], email_logs := [] }

/-- The base checkout redeeming `zeroCapCode`. -/
def c4Req : OrderCreate := { baseReq with discount_code := some "ZERO" }

/-- C4 counterexample: a code with `max_uses = 0` (set!) is accepted because
`if code.get("max_uses")` is falsy for 0, and the redemption leaves the
store with `current_uses = 1 > 0 = max_uses`. -/
theorem C4_counterexample :
    (create_order c4Store c4Req 0 "i4" "n4" "t4" true).toOption.map
        (fun r => r.1.discount_codes.map (fun d => (d.max_uses, d.current_uses))) =
      some [(some 0, 1)] ∧ ¬ (1 : ℤ) ≤ 0 := by
  constructor
  · norm_num [create_order, c4Store, c4Req, baseReq, validateDiscount, zeroCapCode,
      codeExpired, codeLimitReached, codeAlreadyUsedBy, discountFor, subtotalOf, sampleItem,
      postStore, redeemUpdate, usedByOf, sampleAddr, List.find?, Except.toOption]
  · norm_num

/-- Cap invariant restricted to nonzero caps: `current_uses ≤ max_uses`
whenever `max_uses` is set and nonzero. -/
def codeCapInv (d : DiscountCode) : Prop :=
  ∀ m, d.max_uses = some m → m ≠ 0 → d.current_uses ≤ m

/-- Increment-and-append preserves the nonzero-cap invariant when the store
has pairwise-distinct code strings and the validated document passed the
usage-cap guard. -/
lemma redeemUpdate_capInv {codes : List DiscountCode} {c : String} {u : UsedBy}
    {d0 : DiscountCode}
    (hdist : codes.Pairwise (fun a b => a.code ≠ b.code))
    (hfind : codes.find? (fun d => d.code == c && d.active) = some d0)
    (hguard : codeLimitReached d0 = false)
    (hinv : ∀ d ∈ codes, codeCapInv d) :
    ∀ d ∈ redeemUpdate codes c u, codeCapInv d := by
  induction codes with
  | nil => simp [redeemUpdate]
  | cons hd tl ih =>
    rw [List.pairwise_cons] at hdist
    by_cases hc : hd.code = c
    · intro d hdmem
      rw [redeemUpdate, if_pos (by simp [hc])] at hdmem
      rcases List.mem_cons.mp hdmem with h | h
      · subst h
        intro m hm hm0
        by_cases hact : hd.active = true
        · have hd0 : d0 = hd := by
            rw [List.find?_cons_of_pos _ (by simp [hc, hact])] at hfind
            exact (Option.some.injEq _ _ ▸ hfind).symm
          subst hd0
          unfold codeLimitReached at hguard
          rw [hm] at hguard
          dsimp only at hguard
          have hne : (m != 0) = true := by simp [hm0]
          rw [hne, Bool.true_and] at hguard
          have : ¬ m ≤ d0.current_uses := by simpa using hguard
          show d0.current_uses + 1 ≤ m
          omega
        · rw [List.find?_cons_of_neg _ (by simp [hact])] at hfind
          have hp := List.find?_some hfind
          have hmem := List.mem_of_find?_eq_some hfind
          simp only [Bool.and_eq_true, beq_iff_eq] at hp
          exact absurd hp.1 (Ne.symm (hc ▸ hdist.1 d0 hmem))
      · exact hinv d (List.mem_cons_of_mem _ h)
    · intro d hdmem
      rw [redeemUpdate, if_neg (by simp [hc])] at hdmem
      rw [List.find?_cons_of_neg _ (by simp [hc])] at hfind
      rcases List.mem_cons.mp hdmem with h | h
      · subst h
        exact hinv d (List.mem_cons_self _ _)
      · exact ih hdist.2 hfind (fun d hd => hinv d (List.mem_cons_of_mem _ hd)) d h

/-- C4 (amended): in a store whose discount codes have pairwise-distinct
code strings, for every code whose `max_uses` is set and nonzero the
invariant `current_uses ≤ max_uses` is preserved by `create_order`
redemption; `max_uses = 0` is excluded because Python truthiness treats it
as unlimited (see the counterexample). -/
theorem C4_cap_invariant (s : Store) (req : OrderCreate) (now : ℤ)
    (gi gn gt : String) (emailOk : Bool)
    (s2 : Store) (w : List DbWrite) (resp : CreateResponse)
    (h : create_order s req now gi gn gt emailOk = Except.ok (s2, w, resp))
    (hdist : s.discount_codes.Pairwise (fun a b => a.code ≠ b.code))
    (hinv : ∀ d ∈ s.discount_codes, codeCapInv d) :
    ∀ d ∈ s2.discount_codes, codeCapInv d := by
  obtain ⟨da, hda, _, hs2, _, _⟩ := create_order_ok_parts h
  subst hs2
  unfold postStore
  cases hdc : req.discount_code with
  | none => exact hinv
  | some c =>
    rw [hdc] at hda
    dsimp only at hda
    obtain ⟨d0, hfind, _, hguard, _, _⟩ := validateDiscount_ok_parts hda
    exact redeemUpdate_capInv hdist hfind hguard hinv

/-- Active discount code with a cap of 3 uses, none consumed yet. -/
def cappedCode : DiscountCode :=
  { id := "d3", code := "CAP3", discount_type := "fixed", discount_value := 1000,
    code_type := "authorized", max_uses := some 3, current_uses := 0, used_by := [],
    valid_from := 0, valid_until := none, active := true }

/-- Store holding only `cappedCode`. -/
def c4wStore : Store := { discount_codes := [cappedCode], orders := [], email_logs := [] }

/-- The base checkout redeeming `cappedCode`. -/
def c4wReq : OrderCreate := { baseReq with discount_code := some "CAP3" }

/-- C4 witness: after one accepted redemption of the 3-capped code the
incremented document still satisfies the invariant. -/
theorem C4_cap_invariant_witness :
    codeCapInv
      { cappedCode with
        current_uses := cappedCode.current_uses + 1
        used_by := cappedCode.used_by ++ [usedByOf sampleAddr] } := by
  have h := C4_cap_invariant c4wStore c4wReq 0 "i5" "n5" "t5" true _ _ _ rfl
    (by simp [c4wStore])
    (by
      intro d hd m hm hm0
      simp only [c4wStore, List.mem_singleton] at hd
      subst hd
      simp only [cappedCode, Option.some.injEq] at hm ⊢
      omega)
  exact h _ (List.mem_cons_self _ _)


/-! ## C5: status update mapping table -/

/-- C5: `update_order_status` derives both statuses from the one requested
value exactly per the fixed table — pending keeps the order status, paid
confirms, confirmed moves to processing, failed keeps the order status,
delivered marks paid, cancelled cancels both, and any other value only
replaces the order status. -/
theorem C5_status_mapping (ps os : String) :
    update_order_status ps os "pending" = ("pending", os) ∧
    update_order_status ps os "paid" = ("paid", "confirmed") ∧
    update_order_status ps os "confirmed" = ("confirmed", "processing") ∧
    update_order_status ps os "failed" = ("failed", os) ∧
    update_order_status ps os "delivered" = ("paid", "delivered") ∧
    update_order_status ps os "cancelled" = ("cancelled", "cancelled") ∧
    ∀ st : String,
      st ∉ (["pending", "paid", "failed", "confirmed", "delivered", "cancelled"] :
        List String) →
      update_order_status ps os st = (ps, st) := by
  refine ⟨?_, ?_, ?_, ?_, ?_, ?_, ?_⟩
  · simp [update_order_status]
  · simp [update_order_status]
  · simp [update_order_status]
  · simp [update_order_status]
  · simp [update_order_status]
  · simp [update_order_status]
  · intro st hst
    simp only [List.mem_cons, List.not_mem_nil, or_false, not_or] at hst
    obtain ⟨h1, h2, h3, h4, h5, h6⟩ := hst
    simp [update_order_status, h1, h2, h3, h4, h5, h6]

/-- C5 witness: the mapping at concrete inputs, including a value outside
the table (`shipped`) that only moves the order status. -/
theorem C5_status_mapping_witness :
    update_order_status "pending" "processing" "shipped" = ("pending", "shipped") ∧
    update_order_status "pending" "pending" "paid" = ("paid", "confirmed") := by
  have h1 := C5_status_mapping "pending" "processing"
  have h2 := C5_status_mapping "pending" "pending"
  exact ⟨h1.2.2.2.2.2.2 "shipped" (by decide), h2.2.1⟩

/-! ## C6: shipping cost policy -/

/-- C6: the persisted shipping cost of an accepted checkout is the
caller-supplied one when present; otherwise wholesale always pays the flat
fee, and retail pays the flat fee exactly when the unit count is below the
free-shipping threshold of 6. -/
theorem C6_shipping_policy (s : Store) (req : OrderCreate) (now : ℤ)
    (gi gn gt : String) (emailOk : Bool)
    (s2 : Store) (w : List DbWrite) (resp : CreateResponse)
    (h : create_order s req now gi gn gt emailOk = Except.ok (s2, w, resp)) :
    ∀ o : Order, s2.orders = s.orders ++ [o] →
      (∀ c, req.shipping_cost = some c → o.shipping_cost = c) ∧
      (req.shipping_cost = none → req.customer_type = "wholesale" →
        o.shipping_cost = SHIPPING_COST) ∧
      (req.shipping_cost = none → req.customer_type = "retail" →
        FREE_SHIPPING_MIN_UNITS ≤ totalUnits req.items → o.shipping_cost = 0) ∧
      (req.shipping_cost = none → req.customer_type = "retail" →
        totalUnits req.items < FREE_SHIPPING_MIN_UNITS →
        o.shipping_cost = SHIPPING_COST) := by
  obtain ⟨da, hda, hmail, hs2, hw, hresp⟩ := create_order_ok_parts h
  intro o ho
  rw [hs2] at ho
  have hoe : mkOrder req da gi gn gt = o := by
    have h2 : s.orders ++ [mkOrder req da gi gn gt] = s.orders ++ [o] := ho
    simpa using h2
  subst hoe
  refine ⟨?_, ?_, ?_, ?_⟩
  · intro c hc
    show computeShipping req = c
    unfold computeShipping
    rw [hc]
  · intro hnone hwhole
    show computeShipping req = SHIPPING_COST
    unfold computeShipping
    rw [hnone]
    dsimp only
    rw [if_pos (by simp [hwhole])]
  · intro hnone hretail hunits
    show computeShipping req = 0
    unfold computeShipping
    rw [hnone]
    dsimp only
    rw [if_neg (by simp [hretail]), if_pos (by simpa using hunits)]
  · intro hnone hretail hunits
    show computeShipping req = SHIPPING_COST
    unfold computeShipping
    rw [hnone]
    dsimp only
    rw [if_neg (by simp [hretail]), if_neg (by simpa using not_le.mpr hunits)]

/-- C6 witness: the accepted base checkout (retail, one unit, no explicit
cost) is charged the flat fee. -/
theorem C6_shipping_policy_witness :
    (mkOrder baseReq 0 "i6" "n6" "t6").shipping_cost = SHIPPING_COST := by
  have h := C6_shipping_policy emptyStore baseReq 0 "i6" "n6" "t6" true
    (postStore emptyStore baseReq (mkOrder baseReq 0 "i6" "n6" "t6") "n6" "t6")
    (orderWrites baseReq (mkOrder baseReq 0 "i6" "n6" "t6") "n6" "t6")
    { order_id := "i6", order_number := "n6", pickup_token := none } rfl
  exact (h _ rfl).2.2.2 rfl rfl (by decide)

/-! ## C7: pickup token consumption -/

/-- C7: consuming a pickup token on an order whose token issuance matches
its payment method (as `create_order` guarantees) fails when no token was
issued or when the token was already used — returning an error and hence
issuing no order update — and on success flips `pickup_token_used` and sets
the order to paid/delivered; a second consume of the same order then always
fails. -/
theorem C7_pickup_token (o : Order)
    (hlink : o.pickup_token.isSome = true ↔ o.payment_method = "cash_on_delivery") :
    (o.pickup_token = none →
      use_pickup_token o = Except.error "Esta orden no es contra entrega") ∧
    (o.payment_method = "cash_on_delivery" → o.pickup_token_used = true →
      use_pickup_token o = Except.error "El token ya fue utilizado") ∧
    (∀ o2, use_pickup_token o = Except.ok o2 →
      o2.pickup_token_used = true ∧ o2.payment_status = "paid" ∧
      o2.order_status = "delivered" ∧
      use_pickup_token o2 = Except.error "El token ya fue utilizado") := by
  refine ⟨?_, ?_, ?_⟩
  · intro hnone
    have hm : ¬ o.payment_method = "cash_on_delivery" := by
      intro hcod
      have := hlink.mpr hcod
      rw [hnone] at this
      simp at this
    unfold use_pickup_token
    rw [if_pos (by simp [bne_iff_ne, hm])]
  · intro hcod hused
    unfold use_pickup_token
    rw [if_neg (by simp [bne_iff_ne, hcod]), if_pos hused]
  · intro o2 hok
    unfold use_pickup_token at hok
    split at hok
    · exact absurd hok (by simp)
    · split at hok
      · exact absurd hok (by simp)
      · rename_i hm hused
        simp only [Except.ok.injEq] at hok
        subst hok
        refine ⟨rfl, rfl, rfl, ?_⟩
        unfold use_pickup_token
        rw [if_neg (by simpa using hm), if_pos rfl]

/-- A cash-on-delivery order with an unused issued token. -/
def c7Order : Order := mkOrder { baseReq with payment_method := "cash_on_delivery" } 0 "i7" "n7" "COD-AAAA1111"

/-- C7 witness: consuming the token of the concrete COD order succeeds,
marks it paid/delivered, and a second consume fails. -/
theorem C7_pickup_token_witness :
    (use_pickup_token c7Order).toOption.map
        (fun o2 => (o2.pickup_token_used, o2.payment_status, o2.order_status)) =
      some (true, "paid", "delivered") ∧
    use_pickup_token
      { c7Order with
        pickup_token_used := true
        payment_status := "paid"
        order_status := "delivered" } = Except.error "El token ya fue utilizado" := by
  have h := (C7_pickup_token c7Order (by constructor <;> intro <;> rfl)).2.2
    { c7Order with
      pickup_token_used := true
      payment_status := "paid"
      order_status := "delivered" } rfl
  exact ⟨by rw [show use_pickup_token c7Order = Except.ok _ from rfl]; rfl, h.2.2.2⟩

/-! ## C8: external attempt registration -/

/-- C8: registering an external payment attempt fails exactly when the
reference already exists anywhere in the attempt store — whatever order the
existing attempt belongs to — the error leaving the store untouched (the
handler raises before its insert); a fresh reference appends one attempt
with status `initiated`. -/
theorem C8_register_attempt (attempts : List PaymentAttempt)
    (oid ref : String) (amount : ℤ) (newId : String) (now : ℤ) :
    ((∃ a ∈ attempts, a.reference = ref) →
      register_payment_attempt attempts oid ref amount newId now =
        Except.error
          "Esta referencia de pago ya fue utilizada. Por favor inicie un nuevo pago.") ∧
    ((∀ a ∈ attempts, a.reference ≠ ref) →
      register_payment_attempt attempts oid ref amount newId now =
        Except.ok (attempts ++
          [{ id := newId, order_id := oid, reference := ref, amount_in_cents := amount,
             status := "initiated", created_at := some now }])) := by
  constructor
  · intro hdup
    unfold register_payment_attempt
    rw [if_pos]
    simp only [List.any_eq_true, beq_iff_eq]
    obtain ⟨a, ha, hr⟩ := hdup
    exact ⟨a, ha, hr⟩
  · intro hfresh
    unfold register_payment_attempt
    rw [if_neg]
    simp only [List.any_eq_true, beq_iff_eq, not_exists]
    intro a
    simp only [not_and]
    exact fun ha => hfresh a ha

/-- Attempt registered for order `oA` with reference `DUP`. -/
def c8Attempt : PaymentAttempt :=
  { id := "a8", order_id := "oA", reference := "DUP", amount_in_cents := 100,
    status := "initiated", created_at := some 0 }

/-- C8 witness: reusing reference `DUP` for a different order `oB` is
rejected, while a fresh reference is inserted as `initiated`. -/
theorem C8_register_attempt_witness :
    register_payment_attempt [c8Attempt] "oB" "DUP" 200 "a9" 5 =
      Except.error
        "Esta referencia de pago ya fue utilizada. Por favor inicie un nuevo pago." ∧
    register_payment_attempt [c8Attempt] "oB" "FRESH" 200 "a9" 5 =
      Except.ok [c8Attempt,
        { id := "a9", order_id := "oB", reference := "FRESH", amount_in_cents := 200,
          status := "initiated", created_at := some 5 }] := by
  refine ⟨(C8_register_attempt [c8Attempt] "oB" "DUP" 200 "a9" 5).1
      ⟨c8Attempt, by simp, rfl⟩, ?_⟩
  have h := (C8_register_attempt [c8Attempt] "oB" "FRESH" 200 "a9" 5).2
    (by intro a ha; simp only [List.mem_singleton] at ha; subst ha; decide)
  simpa using h


/-! ## C9: cash-on-delivery notification ordering -/

/-- The base checkout paid cash on delivery. -/
def codReq : OrderCreate := { baseReq with payment_method := "cash_on_delivery" }

/-- C9 counterexample: when the notification step fails, `create_order`
aborts with an error — the COD order is not persisted and success is not
returned, because the email is awaited inline before the order insert. -/
theorem C9_counterexample :
    create_order emptyStore codReq 0 "i9" "n9" "COD-BBBB2222" false =
      Except.error "email dispatch failed" := rfl

/-- C9 (amended): for a cash-on-delivery checkout the notification write is
issued before the order insert, and the notification is awaited inline: if
it fails the handler aborts with an error and the order is never persisted;
only when it succeeds is the order inserted. -/
theorem C9_cod_email_ordering (s : Store) (req : OrderCreate) (now : ℤ)
    (gi gn gt : String)
    (s2 : Store) (w : List DbWrite) (resp : CreateResponse)
    (hcod : req.payment_method = "cash_on_delivery")
    (h : create_order s req now gi gn gt true = Except.ok (s2, w, resp)) :
    (∃ o rest, w = DbWrite.emailLog gn gt :: DbWrite.insertOrder o :: rest ∧
      s2.orders = s.orders ++ [o]) ∧
    create_order s req now gi gn gt false = Except.error "email dispatch failed" := by
  obtain ⟨da, hda, hmail, hs2, hw, hresp⟩ := create_order_ok_parts h
  constructor
  · refine ⟨mkOrder req da gi gn gt,
      (match req.discount_code with
       | none => []
       | some c => [DbWrite.incDiscountUse c (usedByOf req.shipping_address)]) ++
        stockWrites req.items, ?_, ?_⟩
    · rw [hw]
      unfold orderWrites
      rw [if_pos (by simp [hcod])]
      simp
    · rw [hs2]
      rfl
  · cases hdc : req.discount_code with
    | none =>
      unfold create_order
      rw [hdc]
      dsimp only
      rw [if_pos (by simp [hcod])]
    | some c =>
      rw [hdc] at hda
      dsimp only at hda
      unfold create_order
      rw [hdc]
      dsimp only
      rw [hda]
      dsimp only
      rw [if_pos (by simp [hcod])]

/-- C9 witness: the amended theorem applied to the concrete COD checkout. -/
theorem C9_cod_email_ordering_witness :
    create_order emptyStore codReq 0 "i9b" "n9b" "COD-CCCC3333" false =
      Except.error "email dispatch failed" := by
  have h := C9_cod_email_ordering emptyStore codReq 0 "i9b" "n9b" "COD-CCCC3333"
    (postStore emptyStore codReq (mkOrder codReq 0 "i9b" "n9b" "COD-CCCC3333")
      "n9b" "COD-CCCC3333")
    (orderWrites codReq (mkOrder codReq 0 "i9b" "n9b" "COD-CCCC3333") "n9b" "COD-CCCC3333")
    { order_id := "i9b", order_number := "n9b", pickup_token := some "COD-CCCC3333" }
    rfl rfl
  exact h.2

/-! ## C10: caller-supplied totals are ignored -/

/-- C10: the outcome of `create_order` — persisted state, writes and
response alike — is identical for two checkout requests differing only in
the caller-supplied `subtotal` and `total_amount` fields, which the handler
excludes and recomputes from the line items, discount code and shipping
policy. -/
theorem C10_caller_totals_ignored (s : Store) (req : OrderCreate) (now : ℤ)
    (gi gn gt : String) (emailOk : Bool) (sub1 tot1 sub2 tot2 : Option Money) :
    create_order s { req with subtotal := sub1, total_amount := tot1 } now gi gn gt emailOk =
    create_order s { req with subtotal := sub2, total_amount := tot2 } now gi gn gt emailOk :=
  rfl


/-- Orders built by `create_order` carry a pickup token exactly when they
are cash-on-delivery, which links the consume guard on the payment method
to the issuance of a token (the hypothesis of the C7 theorem). -/
lemma mkOrder_token_link (req : OrderCreate) (da : Money) (gi gn gt : String) :
    (mkOrder req da gi gn gt).pickup_token.isSome = true ↔
    (mkOrder req da gi gn gt).payment_method = "cash_on_delivery" := by
  by_cases hc : req.payment_method = "cash_on_delivery" <;> simp [mkOrder, hc]


end Runetic
